import Mathlib

/-!
Verification of the audio transcription / speaker-diarization pipeline of the
Agentic_LifeCoach_System repository, as a shallow embedding in Lean 4.

Times (seconds) are modelled as rationals; Python dictionaries holding the
segment data become structures; the imperative loops of the source become
structural recursions carrying the loop state explicitly; Python truthiness
of the looped-over values (`None`, empty string, empty list) is spelled out
at each use site.
-/

set_option autoImplicit false

/-- A transcription segment `{text, start, end}` as produced by the batch
transcription engine (`transcribe_with_parakeet`, test_parakeet_pyannote.py
lines 91-97).  The Python key `end` is rendered as `stop` (`end` is a Lean
keyword). -/
structure TranscriptSegment where
  text : String
  start : Rat
  stop : Rat
  deriving DecidableEq

/-- A speaker interval `{speaker, start, end}` as produced by the diarization
engine (`diarize_with_pyannote`, test_parakeet_pyannote.py lines 149-158). -/
structure SpeakerInterval where
  speaker : String
  start : Rat
  stop : Rat
  deriving DecidableEq

namespace Parakeet

/-- The inner loop of `align_transcription_with_speakers`
(test_parakeet_pyannote.py lines 179-184): scan `speaker_segments` in order
and return the speaker of the first interval with
`spk_seg["start"] <= midpoint <= spk_seg["end"]` (the Python chained
comparison: both bounds inclusive), defaulting to `"UNKNOWN"`. -/
def findSpeaker (midpoint : Rat) : List SpeakerInterval → String
  | [] => "UNKNOWN"
  | i :: rest =>
    if i.start ≤ midpoint ∧ midpoint ≤ i.stop then i.speaker
    else findSpeaker midpoint rest

/-- The per-segment speaker assignment of the aligner
(test_parakeet_pyannote.py lines 177-184): the midpoint `(start+end)/2` is
looked up in the speaker intervals. -/
def assignedSpeaker (speaker_segments : List SpeakerInterval)
    (seg : TranscriptSegment) : String :=
  findSpeaker ((seg.start + seg.stop) / 2) speaker_segments

/-- The flush step of the aligner (test_parakeet_pyannote.py lines 190-191 and
196-197): `if current_speaker and current_text:` appends the rendered line.
Python truthiness: `current_speaker` must be non-`None` and non-empty, and
`current_text` must be a non-empty list. -/
def flushGroup (cur : Option String) (curText : List String)
    (acc : List String) : List String :=
  match cur with
  | none => acc
  | some c =>
    if c ≠ "" ∧ curText ≠ [] then
      acc ++ [c ++ ": " ++ String.intercalate " " curText]
    else acc

/-- The main loop of `align_transcription_with_speakers`
(test_parakeet_pyannote.py lines 176-197), with the loop state
`(current_speaker, current_text, aligned)` passed explicitly.  After the loop
the last group is flushed (lines 196-197). -/
def alignLoop (speaker_segments : List SpeakerInterval) :
    List TranscriptSegment → Option String → List String → List String →
    List String
  | [], cur, curText, acc => flushGroup cur curText acc
  | seg :: rest, cur, curText, acc =>
    if some (assignedSpeaker speaker_segments seg) = cur then
      alignLoop speaker_segments rest cur (curText ++ [seg.text]) acc
    else
      alignLoop speaker_segments rest
        (some (assignedSpeaker speaker_segments seg)) [seg.text]
        (flushGroup cur curText acc)

/-- The function `align_transcription_with_speakers`
(test_parakeet_pyannote.py lines 161-199): with no speaker segments, the
segment texts joined by newlines; otherwise the grouped speaker lines joined
by blank lines (`"\n\n".join`). -/
def align_transcription_with_speakers (text_segments : List TranscriptSegment)
    (speaker_segments : List SpeakerInterval) : String :=
  if speaker_segments = [] then
    String.intercalate "\n" (text_segments.map (fun s => s.text))
  else
    String.intercalate "\n\n" (alignLoop speaker_segments text_segments none [] [])

end Parakeet

namespace Voxtral

/-- The inner speaker-lookup loop of `align_transcription_with_speakers` in
test_voxtral_pyannote.py (lines 201-206), textually identical to the Parakeet
version. -/
def findSpeaker (midpoint : Rat) : List SpeakerInterval → String
  | [] => "UNKNOWN"
  | i :: rest =>
    if i.start ≤ midpoint ∧ midpoint ≤ i.stop then i.speaker
    else findSpeaker midpoint rest

/-- The per-segment speaker assignment of the Voxtral aligner
(test_voxtral_pyannote.py lines 199-206). -/
def assignedSpeaker (speaker_segments : List SpeakerInterval)
    (seg : TranscriptSegment) : String :=
  findSpeaker ((seg.start + seg.stop) / 2) speaker_segments

/-- The flush step of the Voxtral aligner (test_voxtral_pyannote.py lines
212-213 and 218-219). -/
def flushGroup (cur : Option String) (curText : List String)
    (acc : List String) : List String :=
  match cur with
  | none => acc
  | some c =>
    if c ≠ "" ∧ curText ≠ [] then
      acc ++ [c ++ ": " ++ String.intercalate " " curText]
    else acc

/-- The main loop of the Voxtral aligner (test_voxtral_pyannote.py lines
198-219). -/
def alignLoop (speaker_segments : List SpeakerInterval) :
    List TranscriptSegment → Option String → List String → List String →
    List String
  | [], cur, curText, acc => flushGroup cur curText acc
  | seg :: rest, cur, curText, acc =>
    if some (assignedSpeaker speaker_segments seg) = cur then
      alignLoop speaker_segments rest cur (curText ++ [seg.text]) acc
    else
      alignLoop speaker_segments rest
        (some (assignedSpeaker speaker_segments seg)) [seg.text]
        (flushGroup cur curText acc)

/-- The function `align_transcription_with_speakers` of
test_voxtral_pyannote.py (lines 183-221). -/
def align_transcription_with_speakers (text_segments : List TranscriptSegment)
    (speaker_segments : List SpeakerInterval) : String :=
  if speaker_segments = [] then
    String.intercalate "\n" (text_segments.map (fun s => s.text))
  else
    String.intercalate "\n\n" (alignLoop speaker_segments text_segments none [] [])

end Voxtral

/-- The spec-worded assignment rule with a half-open interval: the speaker of
the first interval whose `[start, end)` contains the midpoint, else
`UNKNOWN`.  This definition follows the spec's words, to be compared with the
code's `Parakeet.findSpeaker`. -/
def firstContainingHalfOpen (midpoint : Rat)
    (intervals : List SpeakerInterval) : String :=
  match intervals.find? (fun i => decide (i.start ≤ midpoint ∧ midpoint < i.stop)) with
  | some i => i.speaker
  | none => "UNKNOWN"

/-- The declarative assignment rule with a closed interval: the speaker of the
first interval whose `[start, end]` contains the midpoint, else `UNKNOWN`. -/
def firstContainingClosed (midpoint : Rat)
    (intervals : List SpeakerInterval) : String :=
  match intervals.find? (fun i => decide (i.start ≤ midpoint ∧ midpoint ≤ i.stop)) with
  | some i => i.speaker
  | none => "UNKNOWN"

theorem findSpeaker_eq_firstContainingClosed (midpoint : Rat) :
    ∀ intervals : List SpeakerInterval,
      Parakeet.findSpeaker midpoint intervals =
        firstContainingClosed midpoint intervals := by
  intro intervals
  induction intervals with
  | nil => rfl
  | cons i rest ih =>
    by_cases h : i.start ≤ midpoint ∧ midpoint ≤ i.stop
    · simp [Parakeet.findSpeaker, firstContainingClosed, List.find?, h]
    · simp [Parakeet.findSpeaker, firstContainingClosed, List.find?, h] at ih ⊢
      exact ih

/-- Rendering of one merged group `(speaker, texts)` as an output line
`"<speaker_label>: <joined text>"`. -/
def renderGroup (g : String × List String) : String :=
  g.1 ++ ": " ++ String.intercalate " " g.2

/-- Grouping of consecutive equal-speaker runs, following the spec's merge
rule: walk the `(speaker, text)` assignments in order and collapse
consecutive pairs with the same speaker into one group. -/
def groupConsec : List (String × String) → List (String × List String)
  | [] => []
  | (s, t) :: rest =>
    match groupConsec rest with
    | [] => [(s, [t])]
    | (s2, ts) :: gs =>
      if s = s2 then (s, t :: ts) :: gs else (s, [t]) :: (s2, ts) :: gs

/-- Prepend texts to the first group when it carries the same speaker,
otherwise start a new leading group. -/
def mergeFirst (s : String) (ts : List String) :
    List (String × List String) → List (String × List String)
  | [] => [(s, ts)]
  | (s2, ts2) :: gs =>
    if s = s2 then (s, ts ++ ts2) :: gs else (s, ts) :: (s2, ts2) :: gs

/-- The aligner output as the spec's merge rule words it: group the
per-segment `(assigned speaker, text)` pairs into consecutive equal-speaker
runs, render each group as one line, and join the lines by blank lines. -/
def alignSpec (text_segments : List TranscriptSegment)
    (speaker_segments : List SpeakerInterval) : String :=
  String.intercalate "\n\n"
    ((groupConsec (text_segments.map
      (fun s => (Parakeet.assignedSpeaker speaker_segments s, s.text)))).map renderGroup)

theorem groupConsec_cons (s t : String) (ps : List (String × String)) :
    groupConsec ((s, t) :: ps) = mergeFirst s [t] (groupConsec ps) := by
  cases h : groupConsec ps with
  | nil => simp [groupConsec, mergeFirst, h]
  | cons g gs =>
    cases g with
    | mk s2 ts => by_cases hs : s = s2 <;> simp [groupConsec, mergeFirst, h, hs]

theorem mergeFirst_mergeFirst (s : String) (ts us : List String)
    (G : List (String × List String)) :
    mergeFirst s ts (mergeFirst s us G) = mergeFirst s (ts ++ us) G := by
  cases G with
  | nil => simp [mergeFirst]
  | cons g gs =>
    cases g with
    | mk s2 vs => by_cases h : s = s2 <;> simp [mergeFirst, h, List.append_assoc]

theorem mergeFirst_of_ne (c : String) (ts : List String) (s : String)
    (us : List String) (G : List (String × List String)) (h : c ≠ s) :
    mergeFirst c ts (mergeFirst s us G) = (c, ts) :: mergeFirst s us G := by
  cases G with
  | nil => simp [mergeFirst, h]
  | cons g gs =>
    cases g with
    | mk s2 vs =>
      by_cases h2 : s = s2
      · subst h2
        simp [mergeFirst, h]
      · simp [mergeFirst, h, h2]

theorem flushGroup_append (cur : Option String) (t acc : List String) :
    Parakeet.flushGroup cur t acc = acc ++ Parakeet.flushGroup cur t [] := by
  cases cur with
  | none => simp [Parakeet.flushGroup]
  | some c => by_cases h : c ≠ "" ∧ t ≠ [] <;> simp [Parakeet.flushGroup, h]

theorem alignLoop_append (ints : List SpeakerInterval) :
    ∀ (segs : List TranscriptSegment) (cur : Option String) (t acc : List String),
      Parakeet.alignLoop ints segs cur t acc =
        acc ++ Parakeet.alignLoop ints segs cur t [] := by
  intro segs
  induction segs with
  | nil =>
    intro cur t acc
    simpa [Parakeet.alignLoop] using flushGroup_append cur t acc
  | cons seg rest ih =>
    intro cur t acc
    by_cases h : some (Parakeet.assignedSpeaker ints seg) = cur
    · simp only [Parakeet.alignLoop, if_pos h]
      exact ih cur (t ++ [seg.text]) acc
    · simp only [Parakeet.alignLoop, if_neg h]
      rw [ih _ _ (Parakeet.flushGroup cur t acc),
        ih _ _ (Parakeet.flushGroup cur t []), flushGroup_append cur t acc,
        List.append_assoc]

theorem assignedSpeaker_ne_empty (ints : List SpeakerInterval)
    (h : ∀ i ∈ ints, i.speaker ≠ "") (seg : TranscriptSegment) :
    Parakeet.assignedSpeaker ints seg ≠ "" := by
  unfold Parakeet.assignedSpeaker
  generalize (seg.start + seg.stop) / 2 = m
  induction ints with
  | nil => simp [Parakeet.findSpeaker]
  | cons i rest ih =>
    by_cases hc : i.start ≤ m ∧ m ≤ i.stop
    · simpa [Parakeet.findSpeaker, hc] using h i (by simp)
    · simp only [Parakeet.findSpeaker, if_neg hc]
      exact ih (fun j hj => h j (by simp [hj]))

theorem alignLoop_spec (ints : List SpeakerInterval)
    (hspk : ∀ i ∈ ints, i.speaker ≠ "") :
    ∀ (segs : List TranscriptSegment) (c : String) (t : List String),
      c ≠ "" → t ≠ [] →
      Parakeet.alignLoop ints segs (some c) t [] =
        (mergeFirst c t (groupConsec (segs.map
          (fun s => (Parakeet.assignedSpeaker ints s, s.text))))).map renderGroup := by
  intro segs
  induction segs with
  | nil =>
    intro c t hc ht
    simp [Parakeet.alignLoop, Parakeet.flushGroup, hc, ht, groupConsec,
      mergeFirst, renderGroup]
  | cons seg rest ih =>
    intro c t hc ht
    by_cases h : Parakeet.assignedSpeaker ints seg = c
    · have hcond : some (Parakeet.assignedSpeaker ints seg) = some c := by rw [h]
      simp only [Parakeet.alignLoop, if_pos hcond]
      rw [ih c (t ++ [seg.text]) hc (by simp), List.map_cons, h,
        groupConsec_cons, mergeFirst_mergeFirst]
    · have hcond : ¬ some (Parakeet.assignedSpeaker ints seg) = some c := by
        simp [h]
      simp only [Parakeet.alignLoop, if_neg hcond]
      rw [alignLoop_append, ih (Parakeet.assignedSpeaker ints seg) [seg.text]
        (assignedSpeaker_ne_empty ints hspk seg) (by simp), List.map_cons,
        groupConsec_cons,
        mergeFirst_of_ne c t (Parakeet.assignedSpeaker ints seg) [seg.text] _
          (fun he => h he.symm)]
      simp [Parakeet.flushGroup, hc, ht, renderGroup]

theorem align_empty_intervals (segs : List TranscriptSegment) :
    Parakeet.align_transcription_with_speakers segs [] =
      String.intercalate "\n" (segs.map (fun s => s.text)) := by
  simp [Parakeet.align_transcription_with_speakers]

/-- C1 (amended): for every segment and every non-empty interval sequence, the
aligner assigns the speaker of the first interval, in the supplied order,
whose closed range `[start, end]` (both endpoints inclusive) contains the
segment's temporal midpoint `(start+end)/2`, and `UNKNOWN` when no interval's
`[start, end]` contains it; overlapping intervals are tolerated by this
first-match rule. -/
theorem claim_C1_aligner_first_match_closed_interval
    (intervals : List SpeakerInterval) (seg : TranscriptSegment)
    (h : intervals ≠ []) :
    Parakeet.assignedSpeaker intervals seg =
      firstContainingClosed ((seg.start + seg.stop) / 2) intervals := by
  have _h := h
  exact findSpeaker_eq_firstContainingClosed ((seg.start + seg.stop) / 2) intervals

/-- C1 counterexample: a segment `(start, end) = (0, 4)` has midpoint `2`; the
single interval `("Speaker A", 0, 2)` does not contain `2` in its half-open
range `[0, 2)`, so the claim predicts the `UNKNOWN` label, but the code's
chained comparison `start <= midpoint <= end` is closed at both ends and
assigns `"Speaker A"`. -/
theorem claim_C1_counterexample :
    ((0 : Rat) + 4) / 2 = 2 ∧
    Parakeet.align_transcription_with_speakers
      [⟨"hi", 0, 4⟩] [⟨"Speaker A", 0, 2⟩] = "Speaker A: hi" ∧
    firstContainingHalfOpen 2 [⟨"Speaker A", 0, 2⟩] = "UNKNOWN" ∧
    ("Speaker A: hi" : String) ≠ "UNKNOWN: hi" := by
  refine ⟨by norm_num, ?_, by decide, by decide⟩
  norm_num [Parakeet.align_transcription_with_speakers, Parakeet.alignLoop,
    Parakeet.assignedSpeaker, Parakeet.findSpeaker, Parakeet.flushGroup]
  all_goals decide

theorem claim_C1_witness :
    ([⟨"Speaker A", 0, 2⟩, ⟨"Speaker B", 1, 3⟩] : List SpeakerInterval) ≠ [] ∧
    Parakeet.assignedSpeaker [⟨"Speaker A", 0, 2⟩, ⟨"Speaker B", 1, 3⟩]
        ⟨"x", 1, 2⟩ =
      firstContainingClosed
        (((⟨"x", 1, 2⟩ : TranscriptSegment).start +
          (⟨"x", 1, 2⟩ : TranscriptSegment).stop) / 2)
        [⟨"Speaker A", 0, 2⟩, ⟨"Speaker B", 1, 3⟩] :=
  ⟨by decide,
    claim_C1_aligner_first_match_closed_interval
      [⟨"Speaker A", 0, 2⟩, ⟨"Speaker B", 1, 3⟩] ⟨"x", 1, 2⟩ (by decide)⟩

/-- C2 (amended): for every sequence of segments and every non-empty sequence
of intervals whose speaker labels are all non-empty strings, the aligner
output is formed by walking the per-segment speaker assignments in order:
consecutive segments assigned the same speaker are concatenated, joined by a
single space, into one output line `"<speaker_label>: <joined text>"`; a
speaker change starts a new output line; the first segment always starts a
new line.  (A group whose speaker label is the empty string would be dropped
entirely by the code's truthiness test, hence the non-empty-label proviso.) -/
theorem claim_C2_merge_grouping (segs : List TranscriptSegment)
    (ints : List SpeakerInterval) (h1 : ints ≠ [])
    (h2 : ∀ i ∈ ints, i.speaker ≠ "") :
    Parakeet.align_transcription_with_speakers segs ints = alignSpec segs ints := by
  unfold Parakeet.align_transcription_with_speakers alignSpec
  rw [if_neg h1]
  cases segs with
  | nil => simp [Parakeet.alignLoop, Parakeet.flushGroup, groupConsec]
  | cons seg rest =>
    have hcond : ¬ some (Parakeet.assignedSpeaker ints seg) = none := by simp
    simp only [Parakeet.alignLoop, if_neg hcond]
    have hflush : Parakeet.flushGroup none [] [] = [] := rfl
    rw [hflush, alignLoop_spec ints h2 rest (Parakeet.assignedSpeaker ints seg)
      [seg.text] (assignedSpeaker_ne_empty ints h2 seg) (by simp),
      List.map_cons, groupConsec_cons]

/-- C2 counterexample: with the single segment `("a", 0, 2)` (midpoint `1`)
and the single interval whose speaker label is the empty string, the claim
predicts the output line `": a"`, but the code's truthiness test
`if current_speaker and current_text` drops the group and the output is
empty. -/
theorem claim_C2_counterexample :
    Parakeet.align_transcription_with_speakers [⟨"a", 0, 2⟩] [⟨"", 0, 2⟩] = "" ∧
    ("" : String) ≠ ": a" := by
  refine ⟨?_, by decide⟩
  norm_num [Parakeet.align_transcription_with_speakers, Parakeet.alignLoop,
    Parakeet.assignedSpeaker, Parakeet.findSpeaker, Parakeet.flushGroup]
  all_goals decide

theorem claim_C2_witness :
    ([⟨"Speaker A", 0, 2⟩, ⟨"Speaker B", 2, 3⟩] : List SpeakerInterval) ≠ [] ∧
    (∀ i ∈ ([⟨"Speaker A", 0, 2⟩, ⟨"Speaker B", 2, 3⟩] : List SpeakerInterval),
      i.speaker ≠ "") ∧
    Parakeet.align_transcription_with_speakers
        [⟨"a", 0, 1⟩, ⟨"b", 1, 2⟩, ⟨"c", 2, 3⟩]
        [⟨"Speaker A", 0, 2⟩, ⟨"Speaker B", 2, 3⟩] =
      "Speaker A: a b\n\nSpeaker B: c" :=
  ⟨by decide, by decide,
    (claim_C2_merge_grouping [⟨"a", 0, 1⟩, ⟨"b", 1, 2⟩, ⟨"c", 2, 3⟩]
      [⟨"Speaker A", 0, 2⟩, ⟨"Speaker B", 2, 3⟩] (by decide) (by decide)).trans
      (by
        norm_num [alignSpec, groupConsec, renderGroup,
          Parakeet.assignedSpeaker, Parakeet.findSpeaker]
        all_goals decide)⟩

/-- C3 (amended): for every sequence of segments, `align` called with an empty
interval sequence returns exactly the segments' texts joined by newline
characters, with no speaker labels added by the function; the string
`"Speaker"` can therefore appear in the output only where it occurs inside a
segment's own text. -/
theorem claim_C3_fallback_newline_join (segs : List TranscriptSegment) :
    Parakeet.align_transcription_with_speakers segs [] =
      String.intercalate "\n" (segs.map (fun s => s.text)) :=
  align_empty_intervals segs

/-- C3 counterexample: a segment whose own text is `"Speaker"` makes the
string `"Speaker"` appear in the fallback output, contradicting the claim
that it appears nowhere. -/
theorem claim_C3_counterexample :
    Parakeet.align_transcription_with_speakers [⟨"Speaker", 0, 1⟩] [] = "Speaker" ∧
    "Speaker".toList <+:
      (Parakeet.align_transcription_with_speakers [⟨"Speaker", 0, 1⟩] []).toList :=
  ⟨rfl, by decide⟩

/-- Python truthiness of an optional environment-variable value: `None` and
the empty string are falsy, any other string is truthy. -/
def pyTruthy : Option String → Bool
  | none => false
  | some s => decide (s ≠ "")

/-- Outcome of the batch pipeline steps modelled by `runBatchPipeline`. -/
structure PipelineResult where
  finalText : String
  segments : List TranscriptSegment
  hadDiarization : Bool
  deriving DecidableEq

/-- Steps 2 and 3 of `main` (test_parakeet_pyannote.py lines 281-312): with
`HUGGINGFACE_TOKEN` truthy, diarization is attempted inside a
`try/except Exception` block; on success its intervals are used and
`had_diarization` is set, on any exception the pipeline continues with the
empty interval list (lines 295-297); without the token diarization is
skipped.  Step 3 aligns the already-computed parakeet segments with the
resulting intervals when at least one segment exists, and otherwise uses the
engine's `full_text` (lines 306-312).  The diarization outcome is passed in
as an `Except` value standing for the Python call that may raise. -/
def runBatchPipeline (parakeetSegments : List TranscriptSegment)
    (fullText : String) (hfToken : Option String)
    (diarization : Except String (List SpeakerInterval)) : PipelineResult :=
  let step2 : List SpeakerInterval × Bool :=
    if pyTruthy hfToken then
      match diarization with
      | Except.ok segs => (segs, true)
      | Except.error _ => ([], false)
    else ([], false)
  let finalText :=
    if parakeetSegments ≠ [] then
      Parakeet.align_transcription_with_speakers parakeetSegments step2.1
    else fullText
  ⟨finalText, parakeetSegments, step2.2⟩

/-- C5 (amended): if the diarization step raises any exception during the
batch pipeline, the pipeline does not abort: it continues with an empty
SpeakerInterval list, so when at least one transcription segment exists the
final transcript equals the unlabeled fallback (segment texts
newline-joined), and when the transcription produced no segments the final
transcript is the engine's full text; the already-computed transcription
segments are preserved unchanged and no diarization is reported. -/
theorem claim_C5_diarization_failure_fallback
    (segs : List TranscriptSegment) (fullText : String) (tok : Option String)
    (e : String) :
    runBatchPipeline segs fullText tok (Except.error e) =
      ⟨if segs = [] then fullText
        else String.intercalate "\n" (segs.map (fun s => s.text)),
       segs, false⟩ := by
  unfold runBatchPipeline
  by_cases h : pyTruthy tok = true <;> by_cases h2 : segs = [] <;>
    simp [h, h2, align_empty_intervals]

/-- C5 counterexample: in a pipeline run whose transcription produced no
segments but a non-empty `full_text`, a diarization exception leads to the
final transcript `"hello"` (the full text), while the claim's unlabeled
fallback (the segment texts newline-joined) is the empty string. -/
theorem claim_C5_counterexample :
    (runBatchPipeline [] "hello" (some "tok") (Except.error "boom")).finalText =
      "hello" ∧
    ("hello" : String) ≠
      String.intercalate "\n" (([] : List TranscriptSegment).map (fun s => s.text)) :=
  ⟨rfl, by decide⟩

/-- C6 (confirmed): the aligner is a pure function of its two arguments: its
result depends only on the supplied argument values and their sequence order,
so two calls on the same pair of sequences return byte-identical output; in
the embedding there is no other state for it to read. -/
theorem claim_C6_align_deterministic
    (segs1 segs2 : List TranscriptSegment) (ints1 ints2 : List SpeakerInterval)
    (hs : segs1 = segs2) (hi : ints1 = ints2) :
    Parakeet.align_transcription_with_speakers segs1 ints1 =
      Parakeet.align_transcription_with_speakers segs2 ints2 := by
  rw [hs, hi]

theorem claim_C6_witness :
    Parakeet.align_transcription_with_speakers [⟨"x", 0, 1⟩] [⟨"Speaker A", 0, 1⟩] =
      Parakeet.align_transcription_with_speakers [⟨"x", 0, 1⟩] [⟨"Speaker A", 0, 1⟩] :=
  claim_C6_align_deterministic _ _ _ _ rfl rfl

theorem voxtral_findSpeaker_eq (m : Rat) :
    ∀ l : List SpeakerInterval, Voxtral.findSpeaker m l = Parakeet.findSpeaker m l := by
  intro l
  induction l with
  | nil => rfl
  | cons i rest ih =>
    by_cases h : i.start ≤ m ∧ m ≤ i.stop <;>
      simp [Voxtral.findSpeaker, Parakeet.findSpeaker, h, ih]

theorem voxtral_assignedSpeaker_eq (ints : List SpeakerInterval)
    (seg : TranscriptSegment) :
    Voxtral.assignedSpeaker ints seg = Parakeet.assignedSpeaker ints seg :=
  voxtral_findSpeaker_eq ((seg.start + seg.stop) / 2) ints

theorem voxtral_flushGroup_eq (cur : Option String) (t acc : List String) :
    Voxtral.flushGroup cur t acc = Parakeet.flushGroup cur t acc := by
  cases cur with
  | none => rfl
  | some c => rfl

theorem voxtral_alignLoop_eq (ints : List SpeakerInterval) :
    ∀ (segs : List TranscriptSegment) (cur : Option String) (t acc : List String),
      Voxtral.alignLoop ints segs cur t acc = Parakeet.alignLoop ints segs cur t acc := by
  intro segs
  induction segs with
  | nil =>
    intro cur t acc
    simpa [Voxtral.alignLoop, Parakeet.alignLoop] using voxtral_flushGroup_eq cur t acc
  | cons seg rest ih =>
    intro cur t acc
    simp only [Voxtral.alignLoop, Parakeet.alignLoop, voxtral_assignedSpeaker_eq]
    by_cases h : some (Parakeet.assignedSpeaker ints seg) = cur
    · simp [h, ih]
    · simp [h, ih, voxtral_flushGroup_eq]

/-- C7 (confirmed): the two duplicated aligner implementations in
test_parakeet_pyannote.py and test_voxtral_pyannote.py are extensionally
equal: on every pair of argument sequences they return the identical output
string (the two source functions are textually identical). -/
theorem claim_C7_aligners_extensionally_equal
    (text_segments : List TranscriptSegment)
    (speaker_segments : List SpeakerInterval) :
    Parakeet.align_transcription_with_speakers text_segments speaker_segments =
      Voxtral.align_transcription_with_speakers text_segments speaker_segments := by
  unfold Parakeet.align_transcription_with_speakers
    Voxtral.align_transcription_with_speakers
  rw [voxtral_alignLoop_eq]

/-- Shape of the audio tensor loaded by `torchaudio.load`: the channel count
(`waveform.shape[0]`) and the sample rate.  The sample values themselves are
irrelevant to the normalization claim and are not tracked. -/
structure Waveform where
  channels : Nat
  sampleRate : Nat
  deriving DecidableEq

/-- Resampling step of `diarize_with_pyannote` (test_parakeet_pyannote.py
lines 127-131): if the sample rate differs from 16000, a
`torchaudio.transforms.Resample(sample_rate, 16000)` is applied (preserving
the channel count) and `sample_rate` is set to 16000. -/
def resampleTo16k (w : Waveform) : Waveform :=
  if w.sampleRate ≠ 16000 then ⟨w.channels, 16000⟩ else w

/-- Mono-downmix step of `diarize_with_pyannote` (test_parakeet_pyannote.py
lines 133-135): if `waveform.shape[0] > 1`, the channels are averaged with
`torch.mean(waveform, dim=0, keepdim=True)`, leaving exactly one channel. -/
def toMono (w : Waveform) : Waveform :=
  if w.channels > 1 then ⟨1, w.sampleRate⟩ else w

/-- Audio normalization performed by `diarize_with_pyannote` before building
the `{"waveform", "sample_rate"}` input handed to the Pyannote pipeline
(test_parakeet_pyannote.py lines 124-137): resample first, then downmix. -/
def diarizePreprocess (w : Waveform) : Waveform :=
  toMono (resampleTo16k w)

/-- C8 (confirmed): for every loaded waveform with at least one channel,
whatever its original sample rate and channel count, the waveform handed to
the diarization model has a sample rate of exactly 16000 Hz and exactly one
channel (multi-channel audio is averaged to mono before inference). -/
theorem claim_C8_diarization_input_normalized (w : Waveform)
    (h : 1 ≤ w.channels) :
    (diarizePreprocess w).sampleRate = 16000 ∧
    (diarizePreprocess w).channels = 1 := by
  unfold diarizePreprocess toMono resampleTo16k
  by_cases h1 : w.sampleRate ≠ 16000 <;> by_cases h2 : w.channels > 1 <;>
    simp [h1, h2] <;> omega

theorem claim_C8_witness :
    1 ≤ (⟨2, 44100⟩ : Waveform).channels ∧
    ((diarizePreprocess ⟨2, 44100⟩).sampleRate = 16000 ∧
     (diarizePreprocess ⟨2, 44100⟩).channels = 1) :=
  ⟨by decide, claim_C8_diarization_input_normalized ⟨2, 44100⟩ (by decide)⟩

/-- The function `is_deepgram_available` (transcription_deepgram.py lines
17-24): `bool(os.getenv("DEEPGRAM_API_KEY"))`.  The environment lookup is
passed in as an `Option String` (`None` when the variable is unset); Python's
`bool` of a string is `True` exactly for non-empty strings.  The function is
total: it raises no exception. -/
def is_deepgram_available (env : Option String) : Bool :=
  match env with
  | none => false
  | some s => decide (s ≠ "")

/-- C9 (confirmed): `is_deepgram_available` is a pure boolean query: it
returns `true` if and only if the `DEEPGRAM_API_KEY` environment variable is
set to a non-empty string, and — being a total function of that lookup — the
call never raises. -/
theorem claim_C9_is_deepgram_available_pure (env : Option String) :
    is_deepgram_available env = true ↔ ∃ s, env = some s ∧ s ≠ "" := by
  cases env with
  | none => simp [is_deepgram_available]
  | some s => simp [is_deepgram_available]

/-- Two-digit speaker-number rendering, the `f"Speaker {n:02d}"` padding of
transcription_deepgram.py: numbers in `[0, 10)` get a leading zero. -/
def pad2 (n : Int) : String :=
  if 0 ≤ n ∧ n < 10 then "0" ++ toString n else toString n

/-- A word of the Deepgram response (`alt.words` entries): the text and the
optional speaker attribute (`getattr(word, 'speaker', None)`,
transcription_deepgram.py line 104). -/
structure DGWord where
  word : String
  speaker : Option Int
  deriving DecidableEq

/-- The flush step of the word-level fallback (transcription_deepgram.py
lines 107-109 and 115-117): a line is appended only when
`current_speaker is not None and current_text`. -/
def flushWords (cur : Option Int) (curText : List String)
    (lines : List String) : List String :=
  match cur with
  | none => lines
  | some c =>
    if curText ≠ [] then
      lines ++ ["Speaker " ++ pad2 c ++ ": " ++ String.intercalate " " curText]
    else lines

/-- The word-level loop of `format_diarized_transcript`
(transcription_deepgram.py lines 100-117), with the state
`(current_speaker, current_text, lines)` passed explicitly; the final flush
is lines 115-117. -/
def wordLines : List DGWord → Option Int → List String → List String → List String
  | [], cur, curText, lines => flushWords cur curText lines
  | w :: rest, cur, curText, lines =>
    if w.speaker = cur then
      wordLines rest cur (curText ++ [w.word]) lines
    else
      wordLines rest w.speaker [w.word] (flushWords cur curText lines)

/-- An utterance of the Deepgram response (transcription_deepgram.py lines
84-89): optional speaker number and transcript text. -/
structure DGUtterance where
  speaker : Option Int
  transcript : String
  deriving DecidableEq

/-- The utterance path of `format_diarized_transcript`
(transcription_deepgram.py lines 82-90): each utterance with non-empty
stripped transcript becomes a `"Speaker NN: <text>"` line. -/
def utteranceLines : List DGUtterance → List String
  | [] => []
  | u :: rest =>
    (if u.transcript.trim ≠ "" then
      ["Speaker " ++ pad2 (match u.speaker with | some k => k | none => 0) ++
        ": " ++ u.transcript.trim]
    else []) ++ utteranceLines rest

/-- An alternative of a Deepgram response channel (transcription_deepgram.py
lines 96-121): its word list and plain transcript. -/
structure DGAlternative where
  words : List DGWord
  transcript : String
  deriving DecidableEq

/-- A channel of a Deepgram response (transcription_deepgram.py lines
93-95). -/
structure DGChannel where
  alternatives : List DGAlternative
  deriving DecidableEq

/-- The `results` part of a Deepgram response.  A missing or `None`-valued
`utterances`/`channels` attribute is modelled as the empty list (Python's
`hasattr(...) and ...` truthiness test treats both alike). -/
structure DGResults where
  utterances : List DGUtterance
  channels : List DGChannel
  deriving DecidableEq

/-- The function `format_diarized_transcript` (transcription_deepgram.py
lines 66-123): utterances are preferred; otherwise the first channel's first
alternative is used — its words through the word-level fallback loop, else
its plain transcript, else the `"No transcription available"` sentinel. -/
def format_diarized_transcript (r : DGResults) : String :=
  if r.utterances ≠ [] then
    String.intercalate "\n\n" (utteranceLines r.utterances)
  else
    match r.channels with
    | [] => "No transcription available"
    | ch :: _ =>
      match ch.alternatives with
      | [] => "No transcription available"
      | alt :: _ =>
        if alt.words ≠ [] then
          String.intercalate "\n\n" (wordLines alt.words none [] [])
        else if alt.transcript ≠ "" then alt.transcript
        else "No transcription available"

/-- A response carrying no utterances and a single channel with a single
alternative holding the given words, the shape that drives
`format_diarized_transcript` into its word-level fallback path. -/
def mkWordResponse (ws : List DGWord) (tr : String) : DGResults :=
  ⟨[], [⟨[⟨ws, tr⟩]⟩]⟩

theorem wordLines_none_curText (ws : List DGWord) :
    ∀ (t1 t2 lines : List String),
      wordLines ws none t1 lines = wordLines ws none t2 lines := by
  induction ws with
  | nil => intro t1 t2 lines; rfl
  | cons w rest ih =>
    intro t1 t2 lines
    by_cases h : w.speaker = none
    · simp only [wordLines, if_pos h]
      exact ih _ _ _
    · simp only [wordLines, if_neg h]
      rfl

theorem wordLines_all_none (ws : List DGWord)
    (h : ∀ w ∈ ws, w.speaker = none) :
    ∀ (t lines : List String), wordLines ws none t lines = lines := by
  induction ws with
  | nil => intro t lines; rfl
  | cons w rest ih =>
    intro t lines
    have hw : w.speaker = none := h w (by simp)
    simp only [wordLines, if_pos hw]
    exact ih (fun x hx => h x (by simp [hx])) _ _

theorem wordLines_drop_leading_none (leading : List DGWord)
    (h : ∀ w ∈ leading, w.speaker = none) (rest : List DGWord) :
    ∀ (t lines : List String),
      wordLines (leading ++ rest) none t lines = wordLines rest none [] lines := by
  induction leading with
  | nil => intro t lines; exact wordLines_none_curText rest t [] lines
  | cons w lead ih =>
    intro t lines
    have hw : w.speaker = none := h w (by simp)
    simp only [List.cons_append, wordLines, if_pos hw]
    exact ih (fun x hx => h x (by simp [hx])) _ _

/-- C10 (confirmed): in `format_diarized_transcript`'s word-level fallback
path, every word whose speaker attribute is `None` and that precedes the
first speaker-labeled word is silently omitted from the output (the response
with those leading words formats identically to the response without them),
and when no word in the response carries a speaker label the function returns
the empty string even though words are present. -/
theorem claim_C10_word_fallback_drops_leading_unlabeled
    (leading rest : List DGWord) (tr : String)
    (h : ∀ w ∈ leading, w.speaker = none) :
    (rest ≠ [] →
      format_diarized_transcript (mkWordResponse (leading ++ rest) tr) =
        format_diarized_transcript (mkWordResponse rest tr)) ∧
    (rest = [] → leading ≠ [] →
      format_diarized_transcript (mkWordResponse (leading ++ rest) tr) = "") := by
  constructor
  · intro hr
    have hlr : leading ++ rest ≠ [] := by simp [hr]
    simp only [format_diarized_transcript, mkWordResponse, if_neg (by simp :
      ¬ ([] : List DGUtterance) ≠ []), if_pos hlr, if_pos hr]
    rw [wordLines_drop_leading_none leading h rest]
  · intro hr hl
    subst hr
    rw [List.append_nil]
    simp only [format_diarized_transcript, mkWordResponse, if_neg (by simp :
      ¬ ([] : List DGUtterance) ≠ []), if_pos hl]
    rw [wordLines_all_none leading h]
    rfl

theorem claim_C10_witness :
    (∀ w ∈ ([⟨"hello", none⟩] : List DGWord), w.speaker = none) ∧
    format_diarized_transcript
        (mkWordResponse ([⟨"hello", none⟩] ++ [⟨"world", some 0⟩]) "t") =
      format_diarized_transcript (mkWordResponse [⟨"world", some 0⟩] "t") ∧
    format_diarized_transcript (mkWordResponse ([⟨"hello", none⟩] ++ []) "t") = "" :=
  ⟨by decide,
    (claim_C10_word_fallback_drops_leading_unlabeled [⟨"hello", none⟩]
      [⟨"world", some 0⟩] "t" (by decide)).1 (by decide),
    (claim_C10_word_fallback_drops_leading_unlabeled [⟨"hello", none⟩]
      [] "t" (by decide)).2 rfl (by decide)⟩
